import Mathlib

/-!
Shallow embedding of the CHIP-8 emulator CPU (src/src/cpu.rs) and proofs
about the properties claimed by the specification.

Modelling conventions:
- Machine integers are Nat; wrapping operations take an explicit `% 256`
  (u8) or are bounded by construction; Rust checked arithmetic (plain `+`
  on an unsigned type, which is a program error on overflow) and slice or
  array accesses whose index can be out of bounds are modelled with
  Option, `none` standing for a runtime crash of the Rust program.
- The fixed-size Rust arrays `v`, `stack` and `keypad` (length 16) become
  functions out of `Fin 16`; the 4096-byte memory and the 2048-cell
  display become total functions out of Nat, every access the Rust code
  performs on them being in bounds exactly when the model says so.
- `decode` returns `Except Fault Cpu`: `Fault.unknownOpcode` is the
  catch-all arm of the Rust match (message "Unknown instruction"), while
  `Fault.crash` stands for any other runtime crash reached while
  executing the dispatched instruction.
- The wall-clock condition gating the timer decrement in `Cpu::run` is
  abstracted into an explicit boolean argument, and the thread-local
  random generator used by Cxnn into an explicit byte argument.
-/

/-- The 80-byte font table `CHIP8_FONT` from src/src/cpu.rs. -/
def CHIP8_FONT : List Nat :=
  [0xF0, 0x90, 0x90, 0x90, 0xF0,
   0x20, 0x60, 0x20, 0x20, 0x70,
   0xF0, 0x10, 0xF0, 0x80, 0xF0,
   0xF0, 0x10, 0xF0, 0x10, 0xF0,
   0x90, 0x90, 0xF0, 0x10, 0x10,
   0xF0, 0x80, 0xF0, 0x10, 0xF0,
   0xF0, 0x80, 0xF0, 0x90, 0xF0,
   0xF0, 0x10, 0x20, 0x40, 0x40,
   0xF0, 0x90, 0xF0, 0x90, 0xF0,
   0xF0, 0x90, 0xF0, 0x10, 0xF0,
   0xF0, 0x90, 0xF0, 0x90, 0x90,
   0xE0, 0x90, 0xE0, 0x90, 0xE0,
   0xF0, 0x80, 0x80, 0x80, 0xF0,
   0xE0, 0x90, 0x90, 0x90, 0xE0,
   0xF0, 0x80, 0xF0, 0x80, 0xF0,
   0xF0, 0x80, 0xF0, 0x80, 0x80]

/-- The CPU state of src/src/cpu.rs (struct `Cpu`); the `tick_period`
wall-clock field is abstracted away (see `run`). -/
structure Cpu where
  memory : Nat → Nat
  pc : Nat
  v : Fin 16 → Nat
  i : Nat
  stack : Fin 16 → Nat
  sp : Nat
  delay_timer : Nat
  sound_timer : Nat
  display : Nat → Bool
  keypad : Fin 16 → Bool

/-- Overwriting the region `[start, start + data.length)` of a byte
function with `data`, as Rust `clone_from_slice` / `copy_from_slice`
does on the corresponding subslice. -/
def writeSlice (mem : Nat → Nat) (start : Nat) (data : List Nat) : Nat → Nat :=
  fun a => if start ≤ a ∧ a < start + data.length then data.getD (a - start) 0 else mem a

/-- `Cpu::new`: zeroed state, font copied at 0x50, pc at 0x200. -/
def Cpu.new : Cpu where
  memory := writeSlice (fun _ => 0) 0x50 CHIP8_FONT
  pc := 0x200
  v := fun _ => 0
  i := 0
  stack := fun _ => 0
  sp := 0
  delay_timer := 0
  sound_timer := 0
  display := fun _ => false
  keypad := fun _ => false

/-- `Cpu::load_rom_in_memory`: copies the ROM into
`memory[0x200 .. 0x200 + rom.length)`.  The Rust code slices
`self.memory[0x200..0x200 + rom_data.len()]` without any size check, so
when `0x200 + rom.length > 4096` the slicing panics: that crash is the
`none` case. -/
def load_rom_in_memory (c : Cpu) (rom : List Nat) : Option Cpu :=
  if 0x200 + rom.length ≤ 4096 then
    some { c with memory := writeSlice c.memory 0x200 rom }
  else
    none

/-- `Cpu::fetch`: big-endian combination of the two bytes at pc; the
Rust array accesses panic when an address reaches 4096 (and the u16
increment of pc would overflow first at 0xFFFF), hence the guard. -/
def fetch (c : Cpu) : Option Nat :=
  if c.pc + 1 < 4096 then
    some ((c.memory c.pc) <<< 8 ||| c.memory (c.pc + 1))
  else
    none

/-- `Cpu::update_timers`: each timer is decremented when positive. -/
def update_timers (c : Cpu) : Cpu :=
  let c1 := if 0 < c.delay_timer then { c with delay_timer := c.delay_timer - 1 } else c
  if 0 < c1.sound_timer then { c1 with sound_timer := c1.sound_timer - 1 } else c1

/-- The second nibble of an opcode, bounded: a register index. -/
def second_nibble (op : Nat) : Fin 16 :=
  ⟨(op &&& 0x0F00) >>> 8, by
    have h : op &&& 0x0F00 ≤ 0x0F00 := Nat.and_le_right
    have h2 : (op &&& 0x0F00) >>> 8 = (op &&& 0x0F00) / 256 := by
      simp [Nat.shiftRight_eq_div_pow]
    omega⟩

/-- The third nibble of an opcode, bounded: a register index. -/
def third_nibble (op : Nat) : Fin 16 :=
  ⟨(op &&& 0x00F0) >>> 4, by
    have h : op &&& 0x00F0 ≤ 0x00F0 := Nat.and_le_right
    have h2 : (op &&& 0x00F0) >>> 4 = (op &&& 0x00F0) / 16 := by
      simp [Nat.shiftRight_eq_div_pow]
    omega⟩

/-- Wrapping u8 subtraction (`u8::wrapping_sub`). -/
def wsub8 (a b : Nat) : Nat := (a % 256 + (256 - b % 256)) % 256

/-- 00E0: clears the display. -/
def instruction_00e0 (c : Cpu) : Cpu :=
  { c with display := fun _ => false }

/-- 00EE: `pc = stack[sp]; sp -= 1`.  The Rust indexing panics when
`sp > 15`, and the usize decrement panics when `sp = 0`; both crashes
are `none`. -/
def instruction_00ee (c : Cpu) : Option Cpu :=
  if h : c.sp < 16 then
    if 1 ≤ c.sp then some { c with pc := c.stack ⟨c.sp, h⟩, sp := c.sp - 1 }
    else none
  else none

/-- 1NNN: jump. -/
def instruction_1nnn (c : Cpu) (nnn : Nat) : Cpu :=
  { c with pc := nnn }

/-- 2NNN: `sp += 1; stack[sp] = pc; pc = nnn`.  The write panics when
the incremented pointer reaches 16. -/
def instruction_2nnn (c : Cpu) (nnn : Nat) : Option Cpu :=
  if h : c.sp + 1 < 16 then
    some { c with sp := c.sp + 1,
                  stack := Function.update c.stack ⟨c.sp + 1, h⟩ c.pc,
                  pc := nnn }
  else none

/-- The `self.pc += 2` of the skip instructions and of `run`: a checked
u16 addition, crashing on overflow. -/
def pcPlus2 (c : Cpu) : Option Cpu :=
  if c.pc + 2 ≤ 65535 then some { c with pc := c.pc + 2 } else none

/-- 3XNN: skip next instruction when `v[x] == nn`. -/
def instruction_3xnn (c : Cpu) (x : Fin 16) (nn : Nat) : Option Cpu :=
  if c.v x = nn then pcPlus2 c else some c

/-- 4XNN: skip next instruction when `v[x] != nn`. -/
def instruction_4xnn (c : Cpu) (x : Fin 16) (nn : Nat) : Option Cpu :=
  if c.v x ≠ nn then pcPlus2 c else some c

/-- 5XY0: skip next instruction when `v[x] == v[y]`. -/
def instruction_5xy0 (c : Cpu) (x y : Fin 16) : Option Cpu :=
  if c.v x = c.v y then pcPlus2 c else some c

/-- 6XNN: `v[x] = nn as u8`. -/
def instruction_6xnn (c : Cpu) (x : Fin 16) (nn : Nat) : Cpu :=
  { c with v := Function.update c.v x (nn % 256) }

/-- 7XNN: `self.v[x] += nn as u8` — a plain (checked) u8 addition, NOT
`wrapping_add`: on overflow the Rust program crashes (debug overflow
check), which is the `none` case. -/
def instruction_7xnn (c : Cpu) (x : Fin 16) (nn : Nat) : Option Cpu :=
  if c.v x + nn % 256 ≤ 255 then
    some { c with v := Function.update c.v x (c.v x + nn % 256) }
  else none

/-- 8XY0: `v[x] = v[y]`. -/
def instruction_8xy0 (c : Cpu) (x y : Fin 16) : Cpu :=
  { c with v := Function.update c.v x (c.v y) }

/-- 8XY1: bitwise or. -/
def instruction_8xy1 (c : Cpu) (x y : Fin 16) : Cpu :=
  { c with v := Function.update c.v x (c.v x ||| c.v y) }

/-- 8XY2: bitwise and. -/
def instruction_8xy2 (c : Cpu) (x y : Fin 16) : Cpu :=
  { c with v := Function.update c.v x (c.v x &&& c.v y) }

/-- 8XY3: bitwise xor. -/
def instruction_8xy3 (c : Cpu) (x y : Fin 16) : Cpu :=
  { c with v := Function.update c.v x (c.v x ^^^ c.v y) }

/-- 8XY4: the Rust code first writes the carry flag into `v[0xF]` and
only then performs `self.v[x] = self.v[x].wrapping_add(self.v[y])`,
reading the register file AFTER the flag write — so when x or y is 0xF
the addition sees the flag value. -/
def instruction_8xy4 (c : Cpu) (x y : Fin 16) : Cpu :=
  let flag := if 255 < c.v x + c.v y then 1 else 0
  let v1 := Function.update c.v 15 flag
  { c with v := Function.update v1 x ((v1 x + v1 y) % 256) }

/-- 8XY5: borrow flag written first, then `wrapping_sub`, with the same
flag-first read order as 8XY4. -/
def instruction_8xy5 (c : Cpu) (x y : Fin 16) : Cpu :=
  let flag := if c.v y < c.v x then 1 else 0
  let v1 := Function.update c.v 15 flag
  { c with v := Function.update v1 x (wsub8 (v1 x) (v1 y)) }

/-- 8XY6: LSB into the flag, then shift right. -/
def instruction_8xy6 (c : Cpu) (x : Fin 16) : Cpu :=
  let v1 := Function.update c.v 15 (c.v x &&& 1)
  { c with v := Function.update v1 x (v1 x >>> 1) }

/-- 8XY7: borrow flag written first, then `v[x] = v[y].wrapping_sub(v[x])`. -/
def instruction_8xy7 (c : Cpu) (x y : Fin 16) : Cpu :=
  let flag := if c.v x < c.v y then 1 else 0
  let v1 := Function.update c.v 15 flag
  { c with v := Function.update v1 x (wsub8 (v1 y) (v1 x)) }

/-- 8XYE: MSB into the flag, then shift left (u8 shl drops the high bit). -/
def instruction_8xye (c : Cpu) (x : Fin 16) : Cpu :=
  let v1 := Function.update c.v 15 ((c.v x >>> 7) &&& 1)
  { c with v := Function.update v1 x ((v1 x <<< 1) % 256) }

/-- 9XY0: skip next instruction when `v[x] != v[y]`. -/
def instruction_9xy0 (c : Cpu) (x y : Fin 16) : Option Cpu :=
  if c.v x ≠ c.v y then pcPlus2 c else some c

/-- ANNN: `i = nnn`. -/
def instruction_annn (c : Cpu) (nnn : Nat) : Cpu :=
  { c with i := nnn }

/-- BNNN: `pc = nnn + v[0]`. -/
def instruction_bnnn (c : Cpu) (nnn : Nat) : Cpu :=
  { c with pc := nnn + c.v 0 }

/-- CXNN: `v[x] = nn & random_byte`, the generator made explicit. -/
def instruction_cxnn (c : Cpu) (x : Fin 16) (nn r : Nat) : Cpu :=
  { c with v := Function.update c.v x (nn % 256 &&& r % 256) }

/-- One sprite bit of DXYN: the bit-loop body, reading the CURRENT
`v[x]` for the column (as the Rust loop does on each iteration).  The
conditional collision write `if display[index] { v[0xF] = 1 }` is
expressed as an unconditional write of the conditional value; the XOR
flip always happens for a set sprite bit. -/
def drawBit (c : Cpu) (x : Fin 16) (y_coord pixels bit : Nat) : Cpu :=
  let x_coord := (c.v x + bit) % 64
  let current_pixel := (pixels >>> (7 - bit)) &&& 1
  if current_pixel = 1 then
    let index := 64 * y_coord + x_coord
    let vF := if c.display index = true then 1 else c.v 15
    { c with v := Function.update c.v 15 vF,
             display := fun j => if j = index then xor (c.display j) true else c.display j }
  else c

/-- One sprite row of DXYN: the row byte is read from memory (bounds
checked: the Rust indexing panics at 4096), then the 8 bits are drawn. -/
def drawRow (c : Cpu) (x y : Fin 16) (row : Nat) : Option Cpu :=
  let y_coord := (c.v y + row) % 32
  if c.i + row < 4096 then
    let pixels := c.memory (c.i + row)
    some (List.foldl (fun acc bit => drawBit acc x y_coord pixels bit) c (List.range 8))
  else none

/-- DXYN: `v[0xF] = 0` first, then each of the `n` rows is drawn. -/
def instruction_dxyn (c : Cpu) (x y : Fin 16) (n : Nat) : Option Cpu :=
  let c0 := { c with v := Function.update c.v 15 0 }
  (List.range n).foldlM (fun acc row => drawRow acc x y row) c0

/-- EX9E: skip when key `v[x]` is pressed; `self.keypad[self.v[x]]`
panics when `v[x] > 15`. -/
def instruction_ex9e (c : Cpu) (x : Fin 16) : Option Cpu :=
  if h : c.v x < 16 then
    if c.keypad ⟨c.v x, h⟩ then pcPlus2 c else some c
  else none

/-- EXA1: skip when key `v[x]` is not pressed. -/
def instruction_exa1 (c : Cpu) (x : Fin 16) : Option Cpu :=
  if h : c.v x < 16 then
    if c.keypad ⟨c.v x, h⟩ then some c else pcPlus2 c
  else none

/-- FX07: the body in src/src/cpu.rs is empty, so the state is returned
unchanged. -/
def instruction_fx07 (c : Cpu) (_x : Fin 16) : Cpu := c

/-- FX0A: the body in src/src/cpu.rs is empty, so the state is returned
unchanged — in particular no key is awaited, no register is written and
the program counter is not rewound. -/
def instruction_fx0a (c : Cpu) (_x : Fin 16) : Cpu := c

/-- FX15: empty body in src/src/cpu.rs. -/
def instruction_fx15 (c : Cpu) (_x : Fin 16) : Cpu := c

/-- FX18: empty body in src/src/cpu.rs. -/
def instruction_fx18 (c : Cpu) (_x : Fin 16) : Cpu := c

/-- FX1E: empty body in src/src/cpu.rs. -/
def instruction_fx1e (c : Cpu) (_x : Fin 16) : Cpu := c

/-- FX29: empty body in src/src/cpu.rs. -/
def instruction_fx29 (c : Cpu) (_x : Fin 16) : Cpu := c

/-- FX33: empty body in src/src/cpu.rs. -/
def instruction_fx33 (c : Cpu) (_x : Fin 16) : Cpu := c

/-- FX55: empty body in src/src/cpu.rs. -/
def instruction_fx55 (c : Cpu) (_x : Fin 16) : Cpu := c

/-- FX65: empty body in src/src/cpu.rs. -/
def instruction_fx65 (c : Cpu) (_x : Fin 16) : Cpu := c

/-- The two failure kinds of execution: the catch-all decode arm (Rust
message "Unknown instruction") and any other runtime crash. -/
inductive Fault where
  | unknownOpcode : Fault
  | crash : Fault
deriving DecidableEq

/-- Lifting an instruction that can crash into the decode result. -/
def liftCrash (o : Option Cpu) : Except Fault Cpu :=
  match o with
  | some c => Except.ok c
  | none => Except.error Fault.crash

/-- `Cpu::decode`: nibble extraction and dispatch, arm for arm as in
src/src/cpu.rs; the unmatched catch-all arm is the UnknownOpcode
failure.  `r` is the random byte consumed by CXNN. -/
def decode (c : Cpu) (opcode : Nat) (r : Nat) : Except Fault Cpu :=
  let n := opcode &&& 0x000F
  let nn := opcode &&& 0x00FF
  let nnn := opcode &&& 0x0FFF
  let x : Fin 16 := second_nibble opcode
  let y : Fin 16 := third_nibble opcode
  let op1 := (opcode &&& 0xF000) >>> 12
  let op2 := (opcode &&& 0x0F00) >>> 8
  let op3 := (opcode &&& 0x00F0) >>> 4
  let op4 := opcode &&& 0x000F
  match op1, op2, op3, op4 with
  | 0x0, 0x0, 0xE, 0x0 => Except.ok (instruction_00e0 c)
  | 0x0, 0x0, 0xE, 0xE => liftCrash (instruction_00ee c)
  | 0x1, _, _, _ => Except.ok (instruction_1nnn c nnn)
  | 0x2, _, _, _ => liftCrash (instruction_2nnn c nnn)
  | 0x3, _, _, _ => liftCrash (instruction_3xnn c x nn)
  | 0x4, _, _, _ => liftCrash (instruction_4xnn c x nn)
  | 0x5, _, _, 0x0 => liftCrash (instruction_5xy0 c x y)
  | 0x6, _, _, _ => Except.ok (instruction_6xnn c x nn)
  | 0x7, _, _, _ => liftCrash (instruction_7xnn c x nn)
  | 0x8, _, _, 0x0 => Except.ok (instruction_8xy0 c x y)
  | 0x8, _, _, 0x1 => Except.ok (instruction_8xy1 c x y)
  | 0x8, _, _, 0x2 => Except.ok (instruction_8xy2 c x y)
  | 0x8, _, _, 0x3 => Except.ok (instruction_8xy3 c x y)
  | 0x8, _, _, 0x4 => Except.ok (instruction_8xy4 c x y)
  | 0x8, _, _, 0x5 => Except.ok (instruction_8xy5 c x y)
  | 0x8, _, _, 0x6 => Except.ok (instruction_8xy6 c x)
  | 0x8, _, _, 0x7 => Except.ok (instruction_8xy7 c x y)
  | 0x8, _, _, 0xE => Except.ok (instruction_8xye c x)
  | 0x9, _, _, 0x0 => liftCrash (instruction_9xy0 c x y)
  | 0xA, _, _, _ => Except.ok (instruction_annn c nnn)
  | 0xB, _, _, _ => Except.ok (instruction_bnnn c nnn)
  | 0xC, _, _, _ => Except.ok (instruction_cxnn c x nn r)
  | 0xD, _, _, _ => liftCrash (instruction_dxyn c x y n)
  | 0xE, _, 0x9, 0xE => liftCrash (instruction_ex9e c x)
  | 0xE, _, 0xA, 0x1 => liftCrash (instruction_exa1 c x)
  | 0xF, _, 0x0, 0x7 => Except.ok (instruction_fx07 c x)
  | 0xF, _, 0x0, 0xA => Except.ok (instruction_fx0a c x)
  | 0xF, _, 0x1, 0x5 => Except.ok (instruction_fx15 c x)
  | 0xF, _, 0x1, 0x8 => Except.ok (instruction_fx18 c x)
  | 0xF, _, 0x1, 0xE => Except.ok (instruction_fx1e c x)
  | 0xF, _, 0x2, 0x9 => Except.ok (instruction_fx29 c x)
  | 0xF, _, 0x3, 0x3 => Except.ok (instruction_fx33 c x)
  | 0xF, _, 0x5, 0x5 => Except.ok (instruction_fx55 c x)
  | 0xF, _, 0x6, 0x5 => Except.ok (instruction_fx65 c x)
  | _, _, _, _ => Except.error Fault.unknownOpcode

/-- `Cpu::run`: fetch, advance pc by 2 (checked u16 add), decode, then
decrement the timers when the 60Hz period has elapsed — the wall-clock
comparison is abstracted into the `tick` argument. -/
def run (c : Cpu) (r : Nat) (tick : Bool) : Except Fault Cpu :=
  match fetch c with
  | none => Except.error Fault.crash
  | some opcode =>
    if c.pc + 2 ≤ 65535 then
      match decode { c with pc := c.pc + 2 } opcode r with
      | Except.error e => Except.error e
      | Except.ok c2 => Except.ok (if tick then update_timers c2 else c2)
    else Except.error Fault.crash

/-! Concrete machine states used by the claim theorems. -/

/-- A fresh machine with the single instruction 0xF00A (the key-wait
opcode with target register 0) placed at the start address: pc = 0x200,
no key pressed, all registers zero. -/
def kwState : Cpu :=
  { Cpu.new with memory := writeSlice Cpu.new.memory 0x200 [0xF0, 0x0A] }

/-- The draw scenario of the specification: index 0, sprite bytes
0x3C, 0xC3, 0xFF at memory 0..2, registers zero, and the top-left 3 by 3
display region set to rows 101 / 111 / 010 (cells 0, 2, 64, 65, 66, 129
lit), everything else unlit. -/
def drawState : Cpu :=
  { Cpu.new with
      memory := writeSlice Cpu.new.memory 0 [0x3C, 0xC3, 0xFF],
      display := fun j => j = 0 ∨ j = 2 ∨ j = 64 ∨ j = 65 ∨ j = 66 ∨ j = 129 }

/-- `k` nested calls (opcode 2NNN with nnn = 0x300) from a fresh
machine, with no intervening return. -/
def callChain (k : Nat) : Option Cpu :=
  (List.range k).foldlM (fun acc _ => instruction_2nnn acc 0x300) Cpu.new

/-- State for the 8XY4 counterexample: v[0xF] = 200, v[0] = 100. -/
def c3cexState : Cpu :=
  { Cpu.new with v := Function.update (Function.update Cpu.new.v 15 200) 0 100 }

/-- State for the 8XY4 witness: v[0] = 0xFF, v[1] = 0x0F. -/
def c3exState : Cpu :=
  { Cpu.new with v := Function.update (Function.update Cpu.new.v 0 0xFF) 1 0x0F }

/-- State for the 7XNN overflow crash: v[0] = 0xFF. -/
def c4State : Cpu := { Cpu.new with v := Function.update Cpu.new.v 0 0xFF }

/-- State for the timer-sequence example: delay = 3, sound = 2. -/
def t8State : Cpu := { Cpu.new with delay_timer := 3, sound_timer := 2 }

/-! The claim theorems. -/

/-- Claim C1 (code-bug evidence).  The claim says that a step fetching
Fx0A with no key pressed leaves the program counter unchanged net (so
the opcode is re-fetched), and stores the pressed key once one appears.
The body of `Cpu::instruction_fx0a` in src/src/cpu.rs is empty, so from
the state `kwState` (opcode 0xF00A at pc = 0x200, no key pressed) one
step advances the program counter to 0x202 — net +2, not 0 — and writes
no register: the machine does not spin on the key-wait opcode.  This
contradicts the claim, the doc comment of the function and the
repository test `test_instruction_fx0a`. -/
theorem fx0a_stub_ignores_keywait :
    (run kwState 0 false).toOption.map (fun c2 => (c2.pc, List.ofFn c2.v))
      = some (0x202, List.replicate 16 0) := by decide

/-- Claim C2 (code-bug evidence).  The claim says load signals a
RomTooLarge error exactly when `rom.length + 0x200 > 4096`.  The
`Cpu::load_rom_in_memory` in src/src/cpu.rs returns unit and performs an
unchecked slice copy, so a 3585-byte ROM makes it panic (out-of-bounds
slice), modelled as `none` — a crash, not a signalled error value (its
caller `Chip8::load_rom` even expects a `Result`).  The success path
does behave as claimed: bytes land at 0x200.., pc and registers keep
their initial values, other memory is unchanged (byte 0x205 stays 0). -/
theorem load_rom_unchecked_crash :
    (load_rom_in_memory Cpu.new (List.replicate 3585 0)).isNone = true
  ∧ (load_rom_in_memory Cpu.new [1, 2, 3, 4]).map (fun c2 =>
      (c2.pc, c2.memory 0x200, c2.memory 0x203, c2.memory 0x205, List.ofFn c2.v))
      = some (0x200, 1, 4, 0, List.replicate 16 0) := by
  constructor
  · unfold load_rom_in_memory
    rw [List.length_replicate]
    norm_num
  · decide

/-- Claim C3 counterexample.  The claim asserts that for EVERY pair of
register indices, including x = 0xF, executing 8xy4 sets v[x] to
(old v[x] + old v[y]) mod 256 with the carry flag as final value of
v[0xF].  With x = 0xF, y = 0, v[0xF] = 200, v[0] = 100 the code first
writes the carry flag 1 into v[0xF] and the subsequent addition then
reads it, producing v[0xF] = (1 + 100) mod 256 = 101 — neither the
claimed sum 44 = (200 + 100) mod 256 nor the bare flag 1. -/
theorem add_carry_flag_cex :
    ¬ ((instruction_8xy4 c3cexState 15 0).v 15
        = (c3cexState.v 15 + c3cexState.v 0) % 256) := by decide

/-- Claim C3 (amended).  For register indices x and y with x ≠ 0xF and
y ≠ 0xF (x = y allowed), 8xy4 sets v[x] to (old v[x] + old v[y]) mod
256, overwrites v[0xF] with the carry of the 9-bit sum, leaves every
other register untouched and changes no other machine state. -/
theorem instruction_8xy4_spec (c : Cpu) (x y : Fin 16) (hx : x ≠ 15) (hy : y ≠ 15) :
    (instruction_8xy4 c x y).v x = (c.v x + c.v y) % 256
  ∧ (instruction_8xy4 c x y).v 15 = (if 255 < c.v x + c.v y then 1 else 0)
  ∧ (∀ r : Fin 16, r ≠ x → r ≠ 15 → (instruction_8xy4 c x y).v r = c.v r)
  ∧ (instruction_8xy4 c x y).pc = c.pc
  ∧ (instruction_8xy4 c x y).i = c.i
  ∧ (instruction_8xy4 c x y).sp = c.sp
  ∧ (instruction_8xy4 c x y).memory = c.memory
  ∧ (instruction_8xy4 c x y).stack = c.stack
  ∧ (instruction_8xy4 c x y).delay_timer = c.delay_timer
  ∧ (instruction_8xy4 c x y).sound_timer = c.sound_timer
  ∧ (instruction_8xy4 c x y).display = c.display
  ∧ (instruction_8xy4 c x y).keypad = c.keypad := by
  unfold instruction_8xy4
  refine ⟨?_, ?_, ?_, rfl, rfl, rfl, rfl, rfl, rfl, rfl, rfl, rfl⟩
  · simp [Function.update_apply, hx, hy]
  · simp [Function.update_apply, (Ne.symm hx)]
  · intro r hrx hr15
    simp [Function.update_apply, hrx, hr15]

/-- Witness for the amended claim C3, at the concrete example of the
specification: v[x] = 0xFF, v[y] = 0x0F gives v[x] = 0x0E and
v[0xF] = 1. -/
theorem instruction_8xy4_spec_witness :
    (instruction_8xy4 c3exState 0 1).v 0 = 0x0E
  ∧ (instruction_8xy4 c3exState 0 1).v 15 = 1 :=
  ⟨((instruction_8xy4_spec c3exState 0 1 (by decide) (by decide)).1).trans (by decide),
   ((instruction_8xy4_spec c3exState 0 1 (by decide) (by decide)).2.1).trans (by decide)⟩

/-- Claim C4 (code-bug evidence).  The claim says 7xnn adds with defined
wraparound and never signals an overflow error.  The Rust statement
`self.v[x] += nn as u8` is a plain checked u8 addition (unlike the
deliberate `wrapping_add` of 8xy4), so with v[0] = 0xFF executing opcode
0x7001 crashes on overflow instead of wrapping to 0x00; without overflow
the addition behaves as claimed (0 + 0x21 = 0x21). -/
theorem immediate_add_overflow_crash :
    (instruction_7xnn c4State 0 1).isNone = true
  ∧ (instruction_7xnn Cpu.new 0 0x21).map (fun c2 => c2.v 0) = some 0x21 := by decide

/-- Claim C5.  From `drawState` (v[x] = v[y] = 0, index = 0, sprite
bytes 0x3C, 0xC3, 0xFF at memory 0..2, top-left 3 by 3 display region
101 / 111 / 010), the draw of height 3 succeeds and produces the 3 by 3
region 100 / 001 / 101 with the collision flag v[0xF] = 1, every
destination cell being XOR-flipped. -/
theorem draw_collision_spec :
    (instruction_dxyn drawState 0 0 3).map (fun c2 =>
      ([c2.display 0, c2.display 1, c2.display 2,
        c2.display 64, c2.display 65, c2.display 66,
        c2.display 128, c2.display 129, c2.display 130], c2.v 15))
      = some ([true, false, false, false, false, true, true, false, true], 1) := by
  decide

/-- Claim C6.  A freshly constructed machine has pc = 0x200, all
registers, the index register, all stack slots, the stack pointer and
both timers zero, every display cell unlit, every key released, the
font table at memory [0x50, 0x50 + 80) and every other memory byte
zero. -/
theorem cpu_new_spec :
    Cpu.new.pc = 0x200
  ∧ (∀ r : Fin 16, Cpu.new.v r = 0)
  ∧ Cpu.new.i = 0
  ∧ (∀ s : Fin 16, Cpu.new.stack s = 0)
  ∧ Cpu.new.sp = 0
  ∧ Cpu.new.delay_timer = 0
  ∧ Cpu.new.sound_timer = 0
  ∧ (∀ d : Nat, Cpu.new.display d = false)
  ∧ (∀ k : Fin 16, Cpu.new.keypad k = false)
  ∧ (∀ a : Nat, Cpu.new.memory a
      = if 0x50 ≤ a ∧ a < 0x50 + 80 then CHIP8_FONT.getD (a - 0x50) 0 else 0) := by
  refine ⟨rfl, fun r => rfl, rfl, fun s => rfl, rfl, rfl, rfl, fun d => rfl,
          fun k => rfl, fun a => rfl⟩

/-- Claim C7.  Decoding the opcode 0x00FF reaches the catch-all arm of
the dispatch for every machine state (and every random byte): the
UnknownOpcode failure, not silent continuation — no instruction is
executed and no successor state is produced. -/
theorem decode_unknown_opcode (c : Cpu) (r : Nat) :
    decode c 0x00FF r = Except.error Fault.unknownOpcode := rfl

/-- Claim C8.  One timer tick decrements each timer exactly when it is
positive and leaves it at 0 otherwise — never below zero — and from
delay = 3, sound = 2 three successive ticks yield (2,1), (1,0), (0,0). -/
theorem update_timers_spec :
    (∀ c : Cpu,
        (update_timers c).delay_timer
          = (if 0 < c.delay_timer then c.delay_timer - 1 else 0)
      ∧ (update_timers c).sound_timer
          = (if 0 < c.sound_timer then c.sound_timer - 1 else 0))
  ∧ ((update_timers t8State).delay_timer,
     (update_timers t8State).sound_timer) = (2, 1)
  ∧ ((update_timers (update_timers t8State)).delay_timer,
     (update_timers (update_timers t8State)).sound_timer) = (1, 0)
  ∧ ((update_timers (update_timers (update_timers t8State))).delay_timer,
     (update_timers (update_timers (update_timers t8State))).sound_timer) = (0, 0) := by
  refine ⟨fun c => ?_, by decide, by decide, by decide⟩
  unfold update_timers
  by_cases hd : 0 < c.delay_timer <;> by_cases hs : 0 < c.sound_timer <;>
    simp [hd, hs] <;> omega

/-- Claim C9.  From any state with stack pointer at most 14, a call
2nnn followed by a return 00EE succeeds and restores the program
counter and the stack pointer, leaving memory, all registers, the
index register, both timers, the display and the keypad unchanged;
only stack slot sp + 1 now holds the pushed program counter, every
other slot being untouched. -/
theorem call_return_roundtrip (c : Cpu) (nnn : Nat) (h : c.sp ≤ 14) :
    ((instruction_2nnn c nnn).bind instruction_00ee).map (fun c2 =>
      (c2.pc, c2.sp, c2.memory, c2.v, c2.i, c2.delay_timer, c2.sound_timer,
       c2.display, c2.keypad, fun s : Fin 16 => c2.stack s))
    = some (c.pc, c.sp, c.memory, c.v, c.i, c.delay_timer, c.sound_timer,
       c.display, c.keypad, fun s : Fin 16 =>
         if s.val = c.sp + 1 then c.pc else c.stack s) := by
  have h1 : c.sp + 1 < 16 := by omega
  simp only [instruction_2nnn, dif_pos h1, Option.some_bind, instruction_00ee]
  rw [if_pos (by omega : 1 ≤ c.sp + 1)]
  simp only [Option.map_some', Option.some.injEq, Prod.mk.injEq]
  refine ⟨Function.update_same _ _ _, by omega, trivial, trivial, trivial,
          trivial, trivial, trivial, trivial, ?_⟩
  funext s
  simp [Function.update_apply, Fin.ext_iff]

/-- Witness for claim C9: the round-trip at a fresh machine (sp = 0)
with call target 0x300. -/
theorem call_return_roundtrip_witness :
    Cpu.new.sp ≤ 14
  ∧ ((instruction_2nnn Cpu.new 0x300).bind instruction_00ee).map (fun c2 =>
      (c2.pc, c2.sp, c2.memory, c2.v, c2.i, c2.delay_timer, c2.sound_timer,
       c2.display, c2.keypad, fun s : Fin 16 => c2.stack s))
    = some (Cpu.new.pc, Cpu.new.sp, Cpu.new.memory, Cpu.new.v, Cpu.new.i,
       Cpu.new.delay_timer, Cpu.new.sound_timer, Cpu.new.display, Cpu.new.keypad,
       fun s : Fin 16 => if s.val = Cpu.new.sp + 1 then Cpu.new.pc else Cpu.new.stack s) :=
  ⟨by decide, call_return_roundtrip Cpu.new 0x300 (by decide)⟩

/-- Claim C10.  The call 2nnn increments the stack pointer before
writing, so no call ever writes stack slot 0 (whenever the call
succeeds the slot is unchanged); from a fresh machine 15 nested calls
all succeed, ending with stack pointer 15, and the 16th nested call
addresses slot 16 of the 16-slot array — a crash, not a defined write —
so the stack holds at most 15 call frames. -/
theorem stack_capacity_spec :
    (∀ (c : Cpu) (nnn : Nat),
        (instruction_2nnn c nnn).map (fun c2 => c2.stack 0)
          = (instruction_2nnn c nnn).map (fun _ => c.stack 0))
  ∧ (callChain 15).map (fun c2 => c2.sp) = some 15
  ∧ (callChain 16).isNone = true := by
  refine ⟨fun c nnn => ?_, by decide, by decide⟩
  unfold instruction_2nnn
  split
  · simp [Function.update_apply, Fin.ext_iff]
  · rfl

/-- Witness for claim C7: the unknown-opcode failure at a fresh machine
and random byte 0. -/
theorem decode_unknown_opcode_witness :
    decode Cpu.new 0x00FF 0 = Except.error Fault.unknownOpcode :=
  decode_unknown_opcode Cpu.new 0
